import Mathlib

/-!
# Pharmacy claims application — verification of spec claims

Shallow embedding of the core of the pharmacy claims service
(validator, persistence gateway, claims service, HTTP handlers, bulk
loader) as Lean definitions, followed by theorems settling the frozen
claims about it.

Conventions of the embedding:
* Go `string` fields become `String`; Go byte length (`len`) is
  `String.utf8ByteSize`.
* Go `float64` quantity/price become `Rat`: the validator only performs
  sign comparisons, which are exact in both representations.
* `uuid.UUID` becomes `Nat`; `uuid.Nil` is `0`; calls to `uuid.New()`
  are modelled by passing the freshly generated identifier as an
  explicit argument.
* Database transport failures (connection loss etc.) are not modelled;
  the embedded repository operations are exact over an explicit
  in-memory rendering of the three tables, with the schema constraints
  from `migrations/000001_init.up.sql` applied at each insert.
-/

namespace PharmacyClaims

/-! ## Validator (internal/utility/validator.go) -/

/-- Success/failure of Go `strconv.Atoi` on a short string: an optional
leading sign followed by at least one ASCII digit.  Overflow is not
modelled; every call site in the validator first bounds the byte length
by 11, far below the 19 digits needed to overflow a 64-bit int, so on
those inputs this matches Go exactly. -/
def goAtoiOk (s : String) : Bool :=
  match s.data with
  | [] => false
  | c :: rest =>
    if c = '+' ∨ c = '-' then rest ≠ [] && rest.all Char.isDigit
    else (c :: rest).all Char.isDigit

/-- `Validator.ValidateNDC`: length must be 9–11 bytes and the string
must parse with `strconv.Atoi`.  `none` means the Go function returned
`nil`; `some msg` is the error message it returned. -/
def ValidateNDC (ndc : String) : Option String :=
  if ndc.utf8ByteSize < 9 ∨ ndc.utf8ByteSize > 11 then
    some "invalid NDC format: must be 9-11 digits"
  else if ¬ goAtoiOk ndc then
    some "invalid NDC format: must be numeric"
  else none

/-- `Validator.ValidateNPI`: length must be exactly 10 bytes and the
string must parse with `strconv.Atoi`. -/
def ValidateNPI (npi : String) : Option String :=
  if npi.utf8ByteSize ≠ 10 then
    some "invalid NPI: must be exactly 10 digits"
  else if ¬ goAtoiOk npi then
    some "invalid NPI: must be numeric"
  else none

/-- `Validator.ValidateQuantity`: fails iff `quantity ≤ 0`. -/
def ValidateQuantity (quantity : Rat) : Option String :=
  if quantity ≤ 0 then some "invalid quantity: must be greater than 0" else none

/-- `Validator.ValidatePrice`: fails iff `price < 0`. -/
def ValidatePrice (price : Rat) : Option String :=
  if price < 0 then some "invalid price: must be non-negative" else none

/-- `models.ClaimRequest` (internal/models). -/
structure ClaimRequest where
  ndc : String
  quantity : Rat
  npi : String
  price : Rat
  deriving Repr, DecidableEq

/-- `Validator.ValidateClaimRequest`: runs the four field validators in
the fixed order NDC, NPI, quantity, price and returns the first error. -/
def ValidateClaimRequest (r : ClaimRequest) : Option String :=
  match ValidateNDC r.ndc with
  | some e => some e
  | none =>
    match ValidateNPI r.npi with
    | some e => some e
    | none =>
      match ValidateQuantity r.quantity with
      | some e => some e
      | none =>
        match ValidatePrice r.price with
        | some e => some e
        | none => none

/-! ## Loader batch-size configuration (internal/service/loader.go) -/

/-- Constant `DefaultBatchSize` from loader.go. -/
def DefaultBatchSize : Int := 1000

/-- Constant `MaxBatchSize` from loader.go. -/
def MaxBatchSize : Int := 10000

/-- Constant `MaxConcurrentWorkers` from loader.go. -/
def MaxConcurrentWorkers : Nat := 10

/-- The `batchSize` field stored by `NewLoaderServiceWithBatchSize`:
an out-of-range requested size silently falls back to the default. -/
def NewLoaderServiceWithBatchSize (batchSize : Int) : Int :=
  if batchSize ≤ 0 ∨ batchSize > MaxBatchSize then DefaultBatchSize
  else batchSize

/-- The `batchSize` field stored by the default constructor
`NewLoaderService`, which delegates with `DefaultBatchSize`. -/
def NewLoaderService : Int :=
  NewLoaderServiceWithBatchSize DefaultBatchSize

/-! ## Data model (internal/models) and database state
(migrations/000001_init.up.sql) -/

/-- `models.Pharmacy` row (the serial `id` column plays no role in any
claim and is omitted; `npi` is the natural unique key). -/
structure Pharmacy where
  npi : String
  chain : String
  deriving Repr, DecidableEq

/-- `models.Claim` row; `timestamp` is an abstract tick. -/
structure Claim where
  id : Nat
  ndc : String
  quantity : Rat
  npi : String
  price : Rat
  timestamp : Nat
  deriving Repr, DecidableEq

/-- `models.Reversal` row. -/
structure Reversal where
  id : Nat
  claimID : Nat
  timestamp : Nat
  deriving Repr, DecidableEq

/-- The three tables created by `migrations/000001_init.up.sql`.
Schema constraints carried by the DDL and applied by the embedded
inserts: `pharmacies.npi` UNIQUE, `pharmacies.chain` CHECK in
{health, saint, doctor}, `claims.id` PRIMARY KEY,
`claims.npi` FOREIGN KEY → pharmacies.npi, `reversals.id` PRIMARY KEY,
`reversals.claim_id` FOREIGN KEY → claims.id.  The DDL declares only a
non-unique index `idx_reversals_claim_id` on `reversals.claim_id`; it
carries no uniqueness constraint. -/
structure DBState where
  pharmacies : List Pharmacy
  claims : List Claim
  reversals : List Reversal
  deriving Repr, DecidableEq

/-- The closed chain enumeration of the `valid_chain` CHECK constraint. -/
def validChain (chain : String) : Bool :=
  chain = "health" ∨ chain = "saint" ∨ chain = "doctor"

/-- At most one reversal row references any given claim. -/
def atMostOneReversalPerClaim (s : DBState) : Bool :=
  s.reversals.all fun r =>
    (s.reversals.filter fun r2 => r2.claimID = r.claimID).length ≤ 1

/-! ## Persistence gateway (internal/repository, src/internal/core/config.go
second part: `Postgres`) -/

/-- `Postgres.GetPharmacyByNPI`: single-row lookup; `sql.ErrNoRows`
becomes `none`. -/
def GetPharmacyByNPI (npi : String) (s : DBState) : Option Pharmacy :=
  s.pharmacies.find? fun p => p.npi = npi

/-- `Postgres.GetClaimByID`. -/
def GetClaimByID (id : Nat) (s : DBState) : Option Claim :=
  s.claims.find? fun c => c.id = id

/-- `Postgres.CreateClaim`: plain `INSERT INTO claims`; fails on a
schema violation (duplicate primary key or dangling `npi` foreign key),
which Go surfaces as a wrapped driver error. -/
def CreateClaim (c : Claim) (s : DBState) : Except String DBState :=
  if s.claims.any fun c2 => c2.id = c.id then
    .error "failed to create claim: duplicate key"
  else if ¬ s.pharmacies.any fun p => p.npi = c.npi then
    .error "failed to create claim: foreign key violation"
  else .ok { s with claims := s.claims ++ [c] }

/-- `Postgres.ReverseClaim`: the transactional check-then-insert.
Inside one transaction it re-checks claim existence, checks whether any
reversal already references the claim, and inserts the new reversal row
with a freshly generated id (`uuid.New()`, passed here as
`reversalID`).  On any error the transaction rolls back, so the caller
observes the original state. -/
def Postgres.ReverseClaim (claimID : Nat) (reversalID : Nat) (now : Nat)
    (s : DBState) : Except String DBState :=
  if ¬ s.claims.any fun c => c.id = claimID then
    .error "claim not found"
  else if s.reversals.any fun r => r.claimID = claimID then
    .error "claim already reversed"
  else if s.reversals.any fun r => r.id = reversalID then
    .error "failed to create reversal record: duplicate key"
  else .ok { s with reversals := s.reversals ++ [⟨reversalID, claimID, now⟩] }

/-- One row of `Postgres.batchInsert` into `pharmacies`:
`ON CONFLICT DO NOTHING` silently skips a row whose unique key (`npi`)
is already present; a CHECK-constraint violation (invalid chain) is a
real error that fails the whole batch. -/
def insertPharmacyRow (s : DBState) (p : Pharmacy) : Except String DBState :=
  if ¬ validChain p.chain then
    .error "failed to execute insert: check constraint violation"
  else if s.pharmacies.any fun p2 => p2.npi = p.npi then
    .ok s
  else .ok { s with pharmacies := s.pharmacies ++ [p] }

/-- One row of `Postgres.batchInsert` into `claims`: `ON CONFLICT DO
NOTHING` skips a duplicate primary key; a foreign-key violation is a
real error that fails the whole batch. -/
def insertClaimRow (s : DBState) (c : Claim) : Except String DBState :=
  if ¬ s.pharmacies.any fun p => p.npi = c.npi then
    .error "failed to execute insert: foreign key violation"
  else if s.claims.any fun c2 => c2.id = c.id then
    .ok s
  else .ok { s with claims := s.claims ++ [c] }

/-- One row of `Postgres.batchInsert` into `reversals`: the only unique
constraint on the table is the primary key `id`, so `ON CONFLICT DO
NOTHING` skips a duplicate `id`; a second row with the same `claim_id`
but a fresh `id` conflicts with nothing and is inserted.  A dangling
`claim_id` foreign key is a real error that fails the whole batch. -/
def insertReversalRow (s : DBState) (r : Reversal) : Except String DBState :=
  if ¬ s.claims.any fun c => c.id = r.claimID then
    .error "failed to execute insert: foreign key violation"
  else if s.reversals.any fun r2 => r2.id = r.id then
    .ok s
  else .ok { s with reversals := s.reversals ++ [r] }

/-- `Postgres.batchInsert`: all rows are executed inside one
transaction (each row sees the earlier rows of the same batch); any row
error rolls the whole batch back. -/
def batchInsert {α : Type} (ins : DBState → α → Except String DBState)
    (rows : List α) (s : DBState) : Except String DBState :=
  match rows with
  | [] => .ok s
  | row :: rest =>
    match ins s row with
    | .error e => .error e
    | .ok s2 => batchInsert ins rest s2

/-- `Postgres.BatchCreatePharmacies`. -/
def BatchCreatePharmacies (ps : List Pharmacy) (s : DBState) :
    Except String DBState :=
  batchInsert insertPharmacyRow ps s

/-- `Postgres.BatchCreateClaims`. -/
def BatchCreateClaims (cs : List Claim) (s : DBState) :
    Except String DBState :=
  batchInsert insertClaimRow cs s

/-- `Postgres.BatchCreateReversals`. -/
def BatchCreateReversals (rs : List Reversal) (s : DBState) :
    Except String DBState :=
  batchInsert insertReversalRow rs s

/-- `Postgres.CountPharmacies`. -/
def CountPharmacies (s : DBState) : Nat := s.pharmacies.length

/-- `Postgres.CountClaims`. -/
def CountClaims (s : DBState) : Nat := s.claims.length

/-- `Postgres.CountReversals`. -/
def CountReversals (s : DBState) : Nat := s.reversals.length

/-! ## Claims service (internal/service/claims.go) -/

/-- `models.ClaimResponse`. -/
structure ClaimResponse where
  status : String
  claimID : Nat
  deriving Repr, DecidableEq

/-- `models.ReversalRequest`. -/
structure ReversalRequest where
  claimID : Nat
  reason : String
  deriving Repr, DecidableEq

/-- `models.ReversalResponse`: its fields are a status string and a
`claim_id`; the struct has no field for a reversal row id. -/
structure ReversalResponse where
  status : String
  claimID : Nat
  deriving Repr, DecidableEq

/-- A repository call issued by the claims service, recorded so that
theorems can state which persistence operations a code path performs. -/
inductive RepoOp where
  | getPharmacyByNPI (npi : String)
  | createClaim (c : Claim)
  | getClaimByID (id : Nat)
  | reverseClaimTxn (claimID : Nat)
  deriving Repr, DecidableEq

/-- `ClaimsService.SubmitClaim`: validate, look up the pharmacy, build
the claim with a fresh id (`uuid.New()`, passed as `freshID`) and the
current time, insert, log.  Returns the service result, the resulting
database state, and the trace of repository calls made. -/
def SubmitClaim (req : ClaimRequest) (freshID now : Nat) (s : DBState) :
    Except String ClaimResponse × DBState × List RepoOp :=
  match ValidateClaimRequest req with
  | some e => (.error e, s, [])
  | none =>
    match GetPharmacyByNPI req.npi s with
    | none =>
      (.error ("pharmacy with NPI " ++ req.npi ++ " not found"), s,
        [.getPharmacyByNPI req.npi])
    | some _ =>
      let claim : Claim :=
        ⟨freshID, req.ndc, req.quantity, req.npi, req.price, now⟩
      match CreateClaim claim s with
      | .error e =>
        (.error e, s, [.getPharmacyByNPI req.npi, .createClaim claim])
      | .ok s2 =>
        (.ok ⟨"claim submitted", freshID⟩, s2,
          [.getPharmacyByNPI req.npi, .createClaim claim])

/-- `ClaimsService.ReverseClaim`: fetch the claim, run the
transactional reversal, log, and answer with status `"claim reversed"`
and `ClaimID: claim.ID` — the id of the reversed claim, taken from the
fetched claim row.  Repository errors from the transaction are wrapped
as `"failed to reverse claim: %w"`. -/
def ServiceReverseClaim (req : ReversalRequest) (reversalID now : Nat)
    (s : DBState) :
    Except String ReversalResponse × DBState × List RepoOp :=
  match GetClaimByID req.claimID s with
  | none =>
    (.error ("claim with ID " ++ toString req.claimID ++ " not found"), s,
      [.getClaimByID req.claimID])
  | some claim =>
    match Postgres.ReverseClaim req.claimID reversalID now s with
    | .error e =>
      (.error ("failed to reverse claim: " ++ e), s,
        [.getClaimByID req.claimID, .reverseClaimTxn req.claimID])
    | .ok s2 =>
      (.ok ⟨"claim reversed", claim.id⟩, s2,
        [.getClaimByID req.claimID, .reverseClaimTxn req.claimID,
          .getPharmacyByNPI claim.npi])

/-! ## HTTP handlers (internal/handlers/http.go) -/

/-- `models.ErrorResponse`: the `{error, message}` error body shape. -/
structure ErrorResponse where
  error : String
  message : String
  deriving Repr, DecidableEq

/-- The JSON body written by a handler. -/
inductive HttpBody where
  | claimResp (r : ClaimResponse)
  | reversalResp (r : ReversalResponse)
  | errResp (e : ErrorResponse)
  | healthResp
  deriving Repr, DecidableEq

/-- An HTTP response: numeric status code plus JSON body. -/
structure HttpResp where
  status : Nat
  body : HttpBody
  deriving Repr, DecidableEq

/-- A claims-service method invoked by a handler, recorded so that
theorems can state when the handler never reaches the service. -/
inductive SvcCall where
  | validateClaim
  | submitClaim
  | reverseClaim
  deriving Repr, DecidableEq

/-- `HttpHandler.sendErrorResponse`. -/
def sendErrorResponse (status : Nat) (error message : String) : HttpResp :=
  ⟨status, .errResp ⟨error, message⟩⟩

/-- `HttpHandler.SubmitClaim`: method gate, JSON decode (`none` models
a body that fails to decode), `service.ValidateClaim`,
`service.SubmitClaim`, and classification of service errors by exact
string comparison. -/
def HandlerSubmitClaim (method : String) (body : Option ClaimRequest)
    (freshID now : Nat) (s : DBState) :
    HttpResp × DBState × List SvcCall :=
  if method ≠ "POST" then
    (sendErrorResponse 405 "Method not allowed" "Only POST method is allowed",
      s, [])
  else
    match body with
    | none =>
      (sendErrorResponse 400 "Invalid JSON format" "decode error", s, [])
    | some req =>
      match ValidateClaimRequest req with
      | some e =>
        (sendErrorResponse 400 "Validation failed" e, s, [.validateClaim])
      | none =>
        match SubmitClaim req freshID now s with
        | (.error e, s2, _) =>
          if e = "pharmacy with NPI " ++ req.npi ++ " not found" then
            (sendErrorResponse 404 "Pharmacy not found" e, s2,
              [.validateClaim, .submitClaim])
          else
            (sendErrorResponse 500 "Failed to submit claim" e, s2,
              [.validateClaim, .submitClaim])
        | (.ok resp, s2, _) =>
          (⟨201, .claimResp resp⟩, s2, [.validateClaim, .submitClaim])

/-- `HttpHandler.ReverseClaim`: method gate, JSON decode, nil-UUID
check, `service.ReverseClaim`, and classification of service errors by
exact string comparison (the conflict branch compares against the
literal `"claim is already reversed"`). -/
def HandlerReverseClaim (method : String) (body : Option ReversalRequest)
    (reversalID now : Nat) (s : DBState) :
    HttpResp × DBState × List SvcCall :=
  if method ≠ "POST" then
    (sendErrorResponse 405 "Method not allowed" "Only POST method is allowed",
      s, [])
  else
    match body with
    | none =>
      (sendErrorResponse 400 "Invalid JSON format" "decode error", s, [])
    | some req =>
      if req.claimID = 0 then
        (sendErrorResponse 400 "Invalid claim_id" "claim_id must be a valid UUID",
          s, [])
      else
        match ServiceReverseClaim req reversalID now s with
        | (.error e, s2, _) =>
          if e = "claim with ID " ++ toString req.claimID ++ " not found" then
            (sendErrorResponse 404 "Claim not found" e, s2, [.reverseClaim])
          else if e = "claim is already reversed" then
            (sendErrorResponse 409 "Claim already reversed" e, s2,
              [.reverseClaim])
          else
            (sendErrorResponse 500 "Failed to reverse claim" e, s2,
              [.reverseClaim])
        | (.ok resp, s2, _) =>
          (⟨200, .reversalResp resp⟩, s2, [.reverseClaim])

/-- `HttpHandler.HealthCheck`: method gate, then `200 {status:
"healthy"}`. -/
def HandlerHealthCheck (method : String) (s : DBState) :
    HttpResp × DBState × List SvcCall :=
  if method ≠ "GET" then
    (sendErrorResponse 405 "Method not allowed" "Only GET method is allowed",
      s, [])
  else (⟨200, .healthResp⟩, s, [])

/-! ## Bulk loader (internal/service/loader.go) -/

/-- One `csv.Reader.Read()` outcome below the header: either a
low-level read error (bad quoting etc.) or a parsed field list. -/
inductive CsvRow where
  | ioErr
  | record (fields : List String)
  deriving Repr, DecidableEq

/-- A pharmacy CSV file as the loader sees it: the header read (`none`
models a file whose header read fails, including an unopenable file)
and the subsequent rows. -/
structure CsvFile where
  header : Option (List String)
  rows : List CsvRow
  deriving Repr, DecidableEq

/-- `encoding/csv` field-count enforcement: `FieldsPerRecord` is fixed
from the header, and a later record with a different field count is
surfaced as an `ErrFieldCount` read error, which the loader's error
branch logs and skips. -/
def csvRead (expected : Nat) : CsvRow → Option (List String)
  | .ioErr => none
  | .record fields => if fields.length = expected then some fields else none

/-- The per-row body of `loadPharmaciesFromCSV`'s loop: a read error is
skipped; a record with fewer than two fields is skipped; otherwise the
pharmacy is built from the first two fields (`chain,npi`, trimmed) and
skipped when `ValidateNPI` rejects its NPI. -/
def pharmacyRowRecord (expected : Nat) (row : CsvRow) : Option Pharmacy :=
  match csvRead expected row with
  | none => none
  | some record =>
    if record.length < 2 then none
    else
      let p : Pharmacy := ⟨(record.getD 1 "").trim, (record.getD 0 "").trim⟩
      match ValidateNPI p.npi with
      | some _ => none
      | none => some p

/-- The batch-accumulation loop shared by the CSV loader and the JSON
consumer: extract a record from each input (skipping the ones that
yield nothing), append it to the current batch, flush the batch when it
reaches `bs`, and flush the final partial batch at end of input.
Returns the flushed batches in flush order. -/
def batchLoop {α β : Type} (extract : α → Option β) (bs : Nat) :
    List α → List β → List (List β)
  | [], batch => if batch.length > 0 then [batch] else []
  | x :: rest, batch =>
    match extract x with
    | none => batchLoop extract bs rest batch
    | some b =>
      let batch2 := batch ++ [b]
      if bs ≤ batch2.length then batch2 :: batchLoop extract bs rest []
      else batchLoop extract bs rest batch2

/-- The sequence of batches `loadPharmaciesFromCSV` passes to
`processPharmaciesBatch` for a file with the given header field count. -/
def pharmacyCsvBatches (expected bs : Nat) (rows : List CsvRow) :
    List (List Pharmacy) :=
  batchLoop (pharmacyRowRecord expected) bs rows []

/-- Running the CSV loader's flushed batches against storage:
`processPharmaciesBatch` is `BatchCreatePharmacies` plus per-record
audit events; a batch failure aborts the rest of the file (the whole
batch was rolled back, earlier batches stay committed), as in
`loadPharmaciesFromCSV`'s early returns. -/
def runPharmacyBatches : List (List Pharmacy) → DBState →
    Except String Nat × DBState
  | [], s => (.ok 0, s)
  | b :: rest, s =>
    match BatchCreatePharmacies b s with
    | .error e => (.error ("failed to process batch: " ++ e), s)
    | .ok s2 =>
      match runPharmacyBatches rest s2 with
      | (.ok n, s3) => (.ok (b.length + n), s3)
      | (.error e, s3) => (.error e, s3)

/-- `LoaderService.loadPharmaciesFromCSV`: header read failure fails
the file; otherwise the row loop accumulates and flushes batches,
returning the number of records loaded. -/
def loadPharmaciesFromCSV (f : CsvFile) (bs : Nat) (s : DBState) :
    Except String Nat × DBState :=
  match f.header with
  | none => (.error "failed to read header", s)
  | some hdr => runPharmacyBatches (pharmacyCsvBatches hdr.length bs f.rows) s

/-- The per-file loop of `LoadPharmaciesFromData`: a file error is
logged and the remaining files still processed; returns the total
loaded count and the final state. -/
def pharmaciesLoadRun (files : List CsvFile) (bs : Nat) (s : DBState) :
    Nat × DBState :=
  files.foldl
    (fun (acc : Nat × DBState) f =>
      match loadPharmaciesFromCSV f bs acc.2 with
      | (.ok n, s2) => (acc.1 + n, s2)
      | (.error _, s2) => (acc.1, s2))
    (0, s)

/-- `LoaderService.LoadPharmaciesFromData`: skip when the table is
non-empty; fail when the pharmacies directory is absent, when no CSV
file matches, or when zero records end up loaded. -/
def LoadPharmaciesFromData (dirExists : Bool) (files : List CsvFile)
    (bs : Nat) (s : DBState) : Except String DBState :=
  if CountPharmacies s > 0 then .ok s
  else if ¬ dirExists then .error "pharmacies directory not found"
  else if files.length = 0 then .error "no pharmacy CSV files found"
  else
    let r := pharmaciesLoadRun files bs s
    if r.1 = 0 then .error "no pharmacies loaded from data directory"
    else .ok r.2

/-- The records of the files a worker parsed successfully; a file whose
read or JSON parse fails contributes nothing (its error is logged and
counted, the other files still load). -/
def collectJsonItems {α : Type} (files : List (Except String (List α))) :
    List α :=
  (files.filterMap fun f =>
    match f with
    | .ok items => some items
    | .error _ => none).flatten

/-- The consumer's drain of the flushed JSON batches: a failed batch
insert is logged and skipped (that batch's rows are lost, the loop
continues); returns the total of successfully inserted records. -/
def runJsonBatches {α : Type}
    (bp : List α → DBState → Except String DBState) :
    List (List α) → DBState → Nat × DBState
  | [], s => (0, s)
  | b :: rest, s =>
    match bp b s with
    | .ok s2 =>
      let r := runJsonBatches bp rest s2
      (b.length + r.1, r.2)
    | .error _ => runJsonBatches bp rest s

/-- `loadDataFromFiles`, the generic fan-out/fan-in JSON loader,
rendered sequentially: skip when the table is non-empty; an absent
directory or an empty file match is "no data" and returns nil; the
worker pool parses the files and the single consumer accumulates their
records into batches and flushes them.  Record order across files is
not guaranteed by the Go code; this rendering fixes the enumeration
order, which no theorem below depends on.  After the guards the Go
function always returns nil. -/
def loadDataFromFiles {α : Type} (tableCount : Nat)
    (files : List (Except String (List α)))
    (bp : List α → DBState → Except String DBState)
    (bs : Nat) (s : DBState) : Except String DBState :=
  if tableCount > 0 then .ok s
  else if files.length = 0 then .ok s
  else .ok (runJsonBatches bp (batchLoop some bs (collectJsonItems files) []) s).2

/-- `LoaderService.LoadClaimsFromData` (an absent claims directory
makes the fixed-pattern glob return no files, hence `files = []`). -/
def LoadClaimsFromData (files : List (Except String (List Claim)))
    (bs : Nat) (s : DBState) : Except String DBState :=
  loadDataFromFiles (CountClaims s) files BatchCreateClaims bs s

/-- `LoaderService.LoadReversalsFromData` (reads the `reverts`
directory; an absent directory yields `files = []`). -/
def LoadReversalsFromData (files : List (Except String (List Reversal)))
    (bs : Nat) (s : DBState) : Except String DBState :=
  loadDataFromFiles (CountReversals s) files BatchCreateReversals bs s

/-! ## Spec-side characterizations

Definitions in this section follow the words of the specification (not
the source); they exist to be compared with the source-derived
definitions above. -/

/-- The spec's "numeric string": non-empty and consisting of digits
only. -/
def specNumericDigits (s : String) : Bool :=
  s.data ≠ [] && s.data.all Char.isDigit

/-- What `ValidateNDC` actually accepts: byte length 9–11 and
`strconv.Atoi` success (optional leading sign plus digits). -/
def ndcAccepted (s : String) : Bool :=
  (9 ≤ s.utf8ByteSize && s.utf8ByteSize ≤ 11) && goAtoiOk s

/-- What `ValidateNPI` actually accepts: byte length exactly 10 and
`strconv.Atoi` success. -/
def npiAccepted (s : String) : Bool :=
  (s.utf8ByteSize = 10 : Bool) && goAtoiOk s

/-- The spec's valid pharmacy CSV row: exactly two columns
(`chain,npi`) and an NPI passing validation; yields the pharmacy record
built from the two trimmed fields. -/
def specValidPharmacyRow : CsvRow → Option Pharmacy
  | .ioErr => none
  | .record fields =>
    if fields.length = 2 then
      match ValidateNPI (fields.getD 1 "").trim with
      | some _ => none
      | none => some ⟨(fields.getD 1 "").trim, (fields.getD 0 "").trim⟩
    else none

/-! ## Sample data used by closed theorems -/

/-- A pharmacy with a valid NPI and a chain from the enumeration. -/
def samplePharmacy : Pharmacy := ⟨"1234567890", "health"⟩

/-- A schema-valid claim referencing `samplePharmacy`. -/
def sampleClaim : Claim := ⟨7, "123456789", 30, "1234567890", 25, 0⟩

/-- A reachable state: one pharmacy, one not-yet-reversed claim. -/
def sampleState : DBState := ⟨[samplePharmacy], [sampleClaim], []⟩

/-! ## Shared lemmas -/

lemma ValidateNDC_none_iff (s : String) :
    ValidateNDC s = none ↔ ndcAccepted s = true := by
  unfold ValidateNDC ndcAccepted
  split <;> rename_i h
  · simp only [Bool.and_eq_true, decide_eq_true_eq]
    constructor
    · intro hc; cases hc
    · rintro ⟨⟨h9, h11⟩, _⟩; omega
  · split <;> rename_i hg
    · simp only [Bool.and_eq_true, decide_eq_true_eq]
      constructor
      · intro hc; cases hc
      · rintro ⟨_, hok⟩; exact absurd hok hg
    · simp only [Bool.and_eq_true, decide_eq_true_eq, true_iff]
      exact ⟨⟨by omega, by omega⟩, by simpa using hg⟩

lemma ValidateNPI_none_iff (s : String) :
    ValidateNPI s = none ↔ npiAccepted s = true := by
  unfold ValidateNPI npiAccepted
  split <;> rename_i h
  · simp only [Bool.and_eq_true, decide_eq_true_eq]
    constructor
    · intro hc; cases hc
    · rintro ⟨h10, _⟩; exact absurd h10 h
  · split <;> rename_i hg
    · simp only [Bool.and_eq_true, decide_eq_true_eq]
      constructor
      · intro hc; cases hc
      · rintro ⟨_, hok⟩; exact absurd hok hg
    · simp only [Bool.and_eq_true, decide_eq_true_eq, true_iff]
      exact ⟨by omega, by simpa using hg⟩

lemma ValidateQuantity_none_iff (q : Rat) :
    ValidateQuantity q = none ↔ 0 < q := by
  unfold ValidateQuantity
  split <;> rename_i h
  · simp only [reduceCtorEq, false_iff, not_lt]; exact h
  · simpa using lt_of_not_ge h

lemma ValidatePrice_none_iff (p : Rat) :
    ValidatePrice p = none ↔ 0 ≤ p := by
  unfold ValidatePrice
  split <;> rename_i h
  · simp only [reduceCtorEq, false_iff, not_le]; exact h
  · simpa using le_of_not_gt h

lemma ValidateClaimRequest_none_iff (r : ClaimRequest) :
    ValidateClaimRequest r = none ↔
      (ValidateNDC r.ndc = none ∧ ValidateNPI r.npi = none ∧
       ValidateQuantity r.quantity = none ∧ ValidatePrice r.price = none) := by
  unfold ValidateClaimRequest
  cases ValidateNDC r.ndc <;> cases ValidateNPI r.npi <;>
    cases ValidateQuantity r.quantity <;> cases ValidatePrice r.price <;> simp

lemma batchLoop_flatten {α β : Type} (extract : α → Option β) (bs : Nat)
    (rows : List α) (batch : List β) :
    (batchLoop extract bs rows batch).flatten = batch ++ rows.filterMap extract := by
  induction rows generalizing batch with
  | nil =>
    unfold batchLoop
    split <;> rename_i h
    · simp
    · simp only [List.filterMap_nil, List.append_nil, List.flatten_nil]
      have : batch = [] := by
        cases batch with
        | nil => rfl
        | cons b bt => simp at h
      simp [this]
  | cons x rest ih =>
    unfold batchLoop
    cases hx : extract x with
    | none => simp [ih, List.filterMap_cons, hx]
    | some b =>
      simp only [List.filterMap_cons, hx]
      split
      · simp [ih, List.append_assoc]
      · simp [ih, List.append_assoc]

lemma length_filterMap_add_filter_none {α β : Type} (g : α → Option β)
    (l : List α) :
    (l.filterMap g).length + (l.filter fun a => (g a).isNone).length
      = l.length := by
  induction l with
  | nil => simp
  | cons a t ih =>
    cases h : g a <;> simp [List.filterMap_cons, List.filter_cons, h] <;> omega

lemma pharmacyRowRecord_eq_spec (row : CsvRow) :
    pharmacyRowRecord 2 row = specValidPharmacyRow row := by
  cases row with
  | ioErr => rfl
  | record fields =>
    by_cases h : fields.length = 2
    · have h2 : ¬ fields.length < 2 := by omega
      simp [pharmacyRowRecord, csvRead, specValidPharmacyRow, h, h2]
    · simp [pharmacyRowRecord, csvRead, specValidPharmacyRow, h]

/-! ## Claim theorems -/

/-- C1: the at-most-one-reversal-per-claim invariant is NOT enforced by
a storage uniqueness constraint on the claim-reference column: the DDL
gives `reversals.claim_id` only a non-unique index, so the bulk path
`BatchCreateReversals`, evaluated at two rows with distinct ids and the
same `claim_id` against a reachable state (one pharmacy, one claim, no
reversal), commits both rows and leaves two reversals referencing the
same claim. -/
theorem bulk_reversals_can_duplicate_claim_reference :
    BatchCreateReversals [⟨1, 7, 0⟩, ⟨2, 7, 0⟩] sampleState =
      .ok ⟨[samplePharmacy], [sampleClaim], [⟨1, 7, 0⟩, ⟨2, 7, 0⟩]⟩ ∧
    atMostOneReversalPerClaim sampleState = true ∧
    atMostOneReversalPerClaim
      ⟨[samplePharmacy], [sampleClaim], [⟨1, 7, 0⟩, ⟨2, 7, 0⟩]⟩ = false := by
  refine ⟨by rfl, by decide, by decide⟩

/-- C2: against a state with one existing, not-yet-reversed claim, the
first POST /reversal returns HTTP 200, but the second one for the same
identifier returns HTTP 500 (error "Failed to reverse claim"), not the
409 conflict the claim states: the persistence layer produces
"claim already reversed", the service wraps it into
"failed to reverse claim: claim already reversed", and the handler's
conflict branch compares against the literal
"claim is already reversed", which never matches. -/
theorem duplicate_reversal_maps_to_500_not_409 :
    (HandlerReverseClaim "POST" (some ⟨7, "dup"⟩) 11 0 sampleState).1 =
      ⟨200, .reversalResp ⟨"claim reversed", 7⟩⟩ ∧
    (HandlerReverseClaim "POST" (some ⟨7, "dup"⟩) 12 1
        (HandlerReverseClaim "POST" (some ⟨7, "dup"⟩) 11 0 sampleState).2.1).1 =
      ⟨500, .errResp ⟨"Failed to reverse claim",
        "failed to reverse claim: claim already reversed"⟩⟩ := by
  decide

/-- C3 counterexample: the string "-12345678" has a valid NDC length
and contains the non-digit character '-' in leading-sign position, yet
`ValidateClaimRequest` accepts the request, because `strconv.Atoi`
accepts a leading sign; the claim's assertion that every such string is
rejected is false. -/
theorem validator_accepts_signed_ndc :
    ValidateClaimRequest ⟨"-12345678", 30, "1234567890", 25⟩ = none ∧
    specNumericDigits "-12345678" = false := by
  decide

/-- C3 (amended): `ValidateClaimRequest` checks NDC, NPI, quantity,
price in that fixed order and returns the first failing rule's error;
it accepts exactly when the NDC has byte length 9–11 and parses with
`strconv.Atoi` (optional leading sign plus digits — so a signed string
of the right length is accepted, not rejected), the NPI has byte length
exactly 10 and parses likewise, quantity > 0, and price ≥ 0. -/
theorem validateClaimRequest_first_failure (r : ClaimRequest) :
    (ValidateClaimRequest r = none ↔
      ndcAccepted r.ndc = true ∧ npiAccepted r.npi = true ∧
        0 < r.quantity ∧ 0 ≤ r.price) ∧
    (ndcAccepted r.ndc = false → ValidateClaimRequest r = ValidateNDC r.ndc) ∧
    (ndcAccepted r.ndc = true → npiAccepted r.npi = false →
      ValidateClaimRequest r = ValidateNPI r.npi) ∧
    (ndcAccepted r.ndc = true → npiAccepted r.npi = true → r.quantity ≤ 0 →
      ValidateClaimRequest r = some "invalid quantity: must be greater than 0") ∧
    (ndcAccepted r.ndc = true → npiAccepted r.npi = true → 0 < r.quantity →
      r.price < 0 →
      ValidateClaimRequest r = some "invalid price: must be non-negative") := by
  refine ⟨?_, ?_, ?_, ?_, ?_⟩
  · rw [ValidateClaimRequest_none_iff, ValidateNDC_none_iff,
      ValidateNPI_none_iff, ValidateQuantity_none_iff, ValidatePrice_none_iff]
  · intro h
    have hne : ValidateNDC r.ndc ≠ none := by
      intro hc
      rw [ValidateNDC_none_iff, h] at hc
      cases hc
    obtain ⟨e, he⟩ := Option.ne_none_iff_exists'.mp hne
    unfold ValidateClaimRequest
    rw [he]
  · intro h1 h2
    have hh1 : ValidateNDC r.ndc = none := (ValidateNDC_none_iff r.ndc).mpr h1
    have hne : ValidateNPI r.npi ≠ none := by
      intro hc
      rw [ValidateNPI_none_iff, h2] at hc
      cases hc
    obtain ⟨e, he⟩ := Option.ne_none_iff_exists'.mp hne
    unfold ValidateClaimRequest
    rw [hh1, he]
  · intro h1 h2 hq
    have hh1 : ValidateNDC r.ndc = none := (ValidateNDC_none_iff r.ndc).mpr h1
    have hh2 : ValidateNPI r.npi = none := (ValidateNPI_none_iff r.npi).mpr h2
    unfold ValidateClaimRequest ValidateQuantity
    rw [hh1, hh2, if_pos hq]
  · intro h1 h2 hq hp
    have hh1 : ValidateNDC r.ndc = none := (ValidateNDC_none_iff r.ndc).mpr h1
    have hh2 : ValidateNPI r.npi = none := (ValidateNPI_none_iff r.npi).mpr h2
    have hh3 : ValidateQuantity r.quantity = none :=
      (ValidateQuantity_none_iff r.quantity).mpr hq
    unfold ValidateClaimRequest ValidatePrice
    rw [hh1, hh2, hh3, if_pos hp]

/-- C3 amended-theorem witness: a concrete request accepted through the
characterization, and a concrete request rejected on the NDC rule. -/
theorem validateClaimRequest_first_failure_witness :
    ValidateClaimRequest ⟨"12345678901", 30, "1234567890", 25⟩ = none ∧
    ValidateClaimRequest ⟨"12", 30, "1234567890", 25⟩ =
      ValidateNDC "12" :=
  ⟨(validateClaimRequest_first_failure
      ⟨"12345678901", 30, "1234567890", 25⟩).1.mpr
      ⟨by decide, by decide, by decide, by decide⟩,
    (validateClaimRequest_first_failure
      ⟨"12", 30, "1234567890", 25⟩).2.1 (by decide)⟩

/-- C4: a claim submission that fails validation returns the
validation error with no repository call at all, and a
validation-passing submission whose NPI matches no pharmacy returns the
not-found error after only the pharmacy lookup; in both failure cases
the database state is returned unchanged. -/
theorem submitClaim_failures_leave_state_unchanged (req : ClaimRequest)
    (freshID now : Nat) (s : DBState) :
    (∀ e, ValidateClaimRequest req = some e →
      SubmitClaim req freshID now s = (.error e, s, [])) ∧
    (ValidateClaimRequest req = none → GetPharmacyByNPI req.npi s = none →
      SubmitClaim req freshID now s =
        (.error ("pharmacy with NPI " ++ req.npi ++ " not found"), s,
          [.getPharmacyByNPI req.npi])) := by
  constructor
  · intro e he
    simp [SubmitClaim, he]
  · intro h1 h2
    simp [SubmitClaim, h1, h2]

/-- C4 witness: a request with a short NDC fails validation with no
repository call; a valid request against an empty database fails the
pharmacy lookup with only that lookup performed. -/
theorem submitClaim_failures_leave_state_unchanged_witness :
    SubmitClaim ⟨"12", 30, "1234567890", 25⟩ 9 0 sampleState =
      (.error "invalid NDC format: must be 9-11 digits", sampleState, []) ∧
    SubmitClaim ⟨"123456789", 30, "1234567890", 25⟩ 9 0 ⟨[], [], []⟩ =
      (.error "pharmacy with NPI 1234567890 not found", ⟨[], [], []⟩,
        [.getPharmacyByNPI "1234567890"]) :=
  ⟨(submitClaim_failures_leave_state_unchanged
      ⟨"12", 30, "1234567890", 25⟩ 9 0 sampleState).1
      "invalid NDC format: must be 9-11 digits" (by decide),
    (submitClaim_failures_leave_state_unchanged
      ⟨"123456789", 30, "1234567890", 25⟩ 9 0 ⟨[], [], []⟩).2
      (by decide) (by decide)⟩

/-- C5 counterexample: for a successful reversal of claim 7 where the
newly created reversal row gets the fresh identifier 42, the response
contains 7 — the claim's identifier — while the inserted reversal row's
identifier is 42; the response does not contain the reversal row's
identifier. -/
theorem reversal_response_lacks_reversal_row_id :
    (ServiceReverseClaim ⟨7, "refund"⟩ 42 3 sampleState).1 =
      .ok ⟨"claim reversed", 7⟩ ∧
    (ServiceReverseClaim ⟨7, "refund"⟩ 42 3 sampleState).2.1.reversals =
      [⟨42, 7, 3⟩] ∧
    (42 : Nat) ≠ 7 := by
  refine ⟨by rfl, by rfl, by decide⟩

/-- C5 (amended): for every successful reversal, the result contains a
status string ("claim reversed") together with the identifier of the
reversed claim (the request's claim identifier), not the identifier of
the newly created reversal row. -/
theorem reversal_response_contains_claim_identifier (req : ReversalRequest)
    (reversalID now : Nat) (s : DBState) (resp : ReversalResponse)
    (s2 : DBState) (tr : List RepoOp)
    (h : ServiceReverseClaim req reversalID now s = (.ok resp, s2, tr)) :
    resp.status = "claim reversed" ∧ resp.claimID = req.claimID := by
  unfold ServiceReverseClaim at h
  cases hf : GetClaimByID req.claimID s with
  | none => rw [hf] at h; cases h
  | some claim =>
    rw [hf] at h
    have hid : claim.id = req.claimID := by
      have := List.find?_some hf
      simpa using this
    cases hr : Postgres.ReverseClaim req.claimID reversalID now s with
    | error e => rw [hr] at h; cases h
    | ok s3 =>
      rw [hr] at h
      have : resp = ⟨"claim reversed", claim.id⟩ := by
        cases h; rfl
      rw [this, hid]
      exact ⟨rfl, rfl⟩

/-- C5 amended-theorem witness at a concrete successful reversal. -/
theorem reversal_response_contains_claim_identifier_witness :
    (⟨"claim reversed", 7⟩ : ReversalResponse).status = "claim reversed" ∧
    (⟨"claim reversed", 7⟩ : ReversalResponse).claimID =
      (⟨7, "refund"⟩ : ReversalRequest).claimID :=
  reversal_response_contains_claim_identifier ⟨7, "refund"⟩ 42 3 sampleState
    ⟨"claim reversed", 7⟩
    ⟨[samplePharmacy], [sampleClaim], [⟨42, 7, 3⟩]⟩
    [.getClaimByID 7, .reverseClaimTxn 7, .getPharmacyByNPI "1234567890"]
    (by rfl)

/-- C6: the loader's effective batch size is the configured value for
every size in 1..10000 (the boundary 10000 included), and the default
1000 for every non-positive or over-ceiling size; the default
constructor yields 1000. -/
theorem loader_batch_size_configuration :
    (∀ b : Int,
      (1 ≤ b ∧ b ≤ 10000 → NewLoaderServiceWithBatchSize b = b) ∧
      (b ≤ 0 ∨ b > 10000 → NewLoaderServiceWithBatchSize b = 1000)) ∧
    NewLoaderServiceWithBatchSize 10000 = 10000 ∧
    NewLoaderService = 1000 := by
  refine ⟨fun b => ⟨fun h => ?_, fun h => ?_⟩, by decide, by decide⟩ <;>
    · unfold NewLoaderServiceWithBatchSize DefaultBatchSize MaxBatchSize
      split <;> omega

/-- C6 witness: in-range size 7 is kept. -/
theorem loader_batch_size_configuration_witness :
    (1 ≤ (7 : Int) ∧ (7 : Int) ≤ 10000) ∧
    NewLoaderServiceWithBatchSize 7 = 7 :=
  ⟨by decide, (loader_batch_size_configuration.1 7).1 (by decide)⟩

/-- C7: for each entity type, when the target table already holds at
least one row the loader returns immediately with the state unchanged —
re-running against a non-empty table inserts zero rows. -/
theorem loader_skips_nonempty_tables (dirExists : Bool)
    (csvFiles : List CsvFile)
    (claimFiles : List (Except String (List Claim)))
    (reversalFiles : List (Except String (List Reversal)))
    (bs : Nat) (s : DBState) :
    (0 < s.pharmacies.length →
      LoadPharmaciesFromData dirExists csvFiles bs s = .ok s) ∧
    (0 < s.claims.length → LoadClaimsFromData claimFiles bs s = .ok s) ∧
    (0 < s.reversals.length →
      LoadReversalsFromData reversalFiles bs s = .ok s) := by
  refine ⟨fun h => ?_, fun h => ?_, fun h => ?_⟩ <;>
    simp [LoadPharmaciesFromData, LoadClaimsFromData, LoadReversalsFromData,
      loadDataFromFiles, CountPharmacies, CountClaims, CountReversals, h]

/-- C7 witness: a state with one row in each table makes every loader a
no-op, whatever files are present. -/
theorem loader_skips_nonempty_tables_witness :
    (0 < (DBState.mk [samplePharmacy] [sampleClaim] [⟨42, 7, 3⟩]).pharmacies.length ∧
     0 < (DBState.mk [samplePharmacy] [sampleClaim] [⟨42, 7, 3⟩]).claims.length ∧
     0 < (DBState.mk [samplePharmacy] [sampleClaim] [⟨42, 7, 3⟩]).reversals.length) ∧
    LoadPharmaciesFromData true [⟨some ["chain", "npi"], []⟩] 5
      ⟨[samplePharmacy], [sampleClaim], [⟨42, 7, 3⟩]⟩ =
      .ok ⟨[samplePharmacy], [sampleClaim], [⟨42, 7, 3⟩]⟩ ∧
    LoadClaimsFromData [.ok [sampleClaim]] 5
      ⟨[samplePharmacy], [sampleClaim], [⟨42, 7, 3⟩]⟩ =
      .ok ⟨[samplePharmacy], [sampleClaim], [⟨42, 7, 3⟩]⟩ ∧
    LoadReversalsFromData [.ok [⟨42, 7, 3⟩]] 5
      ⟨[samplePharmacy], [sampleClaim], [⟨42, 7, 3⟩]⟩ =
      .ok ⟨[samplePharmacy], [sampleClaim], [⟨42, 7, 3⟩]⟩ :=
  ⟨⟨by decide, by decide, by decide⟩,
    (loader_skips_nonempty_tables true [⟨some ["chain", "npi"], []⟩] [] [] 5
      ⟨[samplePharmacy], [sampleClaim], [⟨42, 7, 3⟩]⟩).1 (by decide),
    (loader_skips_nonempty_tables true [] [.ok [sampleClaim]] [] 5
      ⟨[samplePharmacy], [sampleClaim], [⟨42, 7, 3⟩]⟩).2.1 (by decide),
    (loader_skips_nonempty_tables true [] [] [.ok [⟨42, 7, 3⟩]] 5
      ⟨[samplePharmacy], [sampleClaim], [⟨42, 7, 3⟩]⟩).2.2 (by decide)⟩

/-- C8: missing input data is fatal only for pharmacies: with an empty
pharmacy table, `LoadPharmaciesFromData` fails when the directory is
absent, when no CSV file matches, and when zero records end up loaded;
`LoadClaimsFromData` and `LoadReversalsFromData` return nil when no
file matches (an absent directory makes the fixed glob match
nothing). -/
theorem missing_data_fatal_only_for_pharmacies (files : List CsvFile)
    (bs : Nat) (s : DBState) :
    (s.pharmacies = [] →
      LoadPharmaciesFromData false files bs s =
        .error "pharmacies directory not found") ∧
    (s.pharmacies = [] →
      LoadPharmaciesFromData true [] bs s =
        .error "no pharmacy CSV files found") ∧
    (s.pharmacies = [] → files ≠ [] → (pharmaciesLoadRun files bs s).1 = 0 →
      LoadPharmaciesFromData true files bs s =
        .error "no pharmacies loaded from data directory") ∧
    (LoadClaimsFromData [] bs s = .ok s) ∧
    (LoadReversalsFromData [] bs s = .ok s) := by
  refine ⟨fun h => ?_, fun h => ?_, fun h hf h0 => ?_, ?_, ?_⟩
  · simp [LoadPharmaciesFromData, CountPharmacies, h]
  · simp [LoadPharmaciesFromData, CountPharmacies, h]
  · have hlen : files.length ≠ 0 := by
      intro hc
      exact hf (List.eq_nil_of_length_eq_zero hc)
    simp [LoadPharmaciesFromData, CountPharmacies, h, hlen, h0]
  · unfold LoadClaimsFromData loadDataFromFiles
    split <;> simp
  · unfold LoadReversalsFromData loadDataFromFiles
    split <;> simp

/-- C8 witness: an empty database; for the zero-loaded case, a single
CSV file whose header read fails, so zero pharmacies load. -/
theorem missing_data_fatal_only_for_pharmacies_witness :
    ((DBState.mk [] [] []).pharmacies = [] ∧
      ([⟨none, []⟩] : List CsvFile) ≠ [] ∧
      (pharmaciesLoadRun [⟨none, []⟩] 5 ⟨[], [], []⟩).1 = 0) ∧
    LoadPharmaciesFromData false [⟨none, []⟩] 5 ⟨[], [], []⟩ =
      .error "pharmacies directory not found" ∧
    LoadPharmaciesFromData true [] 5 ⟨[], [], []⟩ =
      .error "no pharmacy CSV files found" ∧
    LoadPharmaciesFromData true [⟨none, []⟩] 5 ⟨[], [], []⟩ =
      .error "no pharmacies loaded from data directory" :=
  ⟨⟨by decide, by decide, by rfl⟩,
    (missing_data_fatal_only_for_pharmacies [⟨none, []⟩] 5 ⟨[], [], []⟩).1
      (by decide),
    (missing_data_fatal_only_for_pharmacies [] 5 ⟨[], [], []⟩).2.1 (by decide),
    (missing_data_fatal_only_for_pharmacies [⟨none, []⟩] 5 ⟨[], [], []⟩).2.2.1
      (by decide) (by decide) (by rfl)⟩

/-- C9: for a pharmacy CSV file with a two-column header, the loader's
row loop accumulates into batches exactly the valid rows (two columns,
NPI passing validation) — their concatenation over all flushed batches
equals the valid records in order, so no malformed row ever enters a
batch — and the valid and malformed row counts partition the file's
rows; the loop runs to the end of the file whatever the malformed rows
are. -/
theorem csv_loader_batches_exactly_valid_rows (bs : Nat)
    (rows : List CsvRow) :
    (pharmacyCsvBatches 2 bs rows).flatten =
      rows.filterMap specValidPharmacyRow ∧
    (rows.filterMap specValidPharmacyRow).length +
      (rows.filter fun r => (specValidPharmacyRow r).isNone).length =
      rows.length := by
  constructor
  · unfold pharmacyCsvBatches
    rw [batchLoop_flatten]
    rw [funext pharmacyRowRecord_eq_spec]
    simp
  · exact length_filterMap_add_filter_none specValidPharmacyRow rows

/-- C10: for each of the three routes, a request whose method is not
the allowed one is answered with HTTP 405 and an {error, message} body,
with the database state unchanged and no claims-service method
invoked. -/
theorem wrong_method_is_405_without_service_call (method : String)
    (cb : Option ClaimRequest) (rb : Option ReversalRequest)
    (freshID now : Nat) (s : DBState) :
    (method ≠ "POST" →
      HandlerSubmitClaim method cb freshID now s =
        (⟨405, .errResp ⟨"Method not allowed", "Only POST method is allowed"⟩⟩,
          s, []) ∧
      HandlerReverseClaim method rb freshID now s =
        (⟨405, .errResp ⟨"Method not allowed", "Only POST method is allowed"⟩⟩,
          s, [])) ∧
    (method ≠ "GET" →
      HandlerHealthCheck method s =
        (⟨405, .errResp ⟨"Method not allowed", "Only GET method is allowed"⟩⟩,
          s, [])) := by
  constructor
  · intro h
    constructor
    · simp [HandlerSubmitClaim, sendErrorResponse, h]
    · simp [HandlerReverseClaim, sendErrorResponse, h]
  · intro h
    simp [HandlerHealthCheck, sendErrorResponse, h]

/-- C10 witness: a DELETE request to each route. -/
theorem wrong_method_is_405_without_service_call_witness :
    ("DELETE" ≠ "POST" ∧ "DELETE" ≠ "GET") ∧
    HandlerSubmitClaim "DELETE" none 9 0 sampleState =
      (⟨405, .errResp ⟨"Method not allowed", "Only POST method is allowed"⟩⟩,
        sampleState, []) ∧
    HandlerReverseClaim "DELETE" none 9 0 sampleState =
      (⟨405, .errResp ⟨"Method not allowed", "Only POST method is allowed"⟩⟩,
        sampleState, []) ∧
    HandlerHealthCheck "DELETE" sampleState =
      (⟨405, .errResp ⟨"Method not allowed", "Only GET method is allowed"⟩⟩,
        sampleState, []) :=
  ⟨⟨by decide, by decide⟩,
    ((wrong_method_is_405_without_service_call "DELETE" none none 9 0
      sampleState).1 (by decide)).1,
    ((wrong_method_is_405_without_service_call "DELETE" none none 9 0
      sampleState).1 (by decide)).2,
    (wrong_method_is_405_without_service_call "DELETE" none none 9 0
      sampleState).2 (by decide)⟩

end PharmacyClaims
